import Mathlib

/-!
Verification of the `simple_docker_runtime` execution backend.

Shallow embedding of the parts of the repository that the checked
properties talk about:

* `src/simplerun/plugins/jupyter/__init__.py` — the `JupyterPlugin`
  (kernel-gateway launch configuration, the Unix readiness-polling loop,
  the interpreter probe, the `_run` / `run` cell-execution pipeline);
* `src/simplerun/main.py` — the action dispatcher `execute_action` and
  the file helpers `read_file_action` / `edit_file_action`.

Machine strings are modelled as Lean `String` / `List Char`; Python
exceptions are modelled with `Except`; the filesystem and the remote
kernel are abstracted as explicit function parameters so the pure
control flow of the source is what the definitions capture.
-/

namespace SimpleRun

/-! ## Python string primitives used by the source -/

/-- Embedding of Python's substring test `pat in s` over character lists:
`pat` occurs (contiguously) somewhere in `s`.  The empty pattern occurs in
every string, as in Python. -/
def hasSubstrAux (pat : List Char) : List Char → Bool
  | [] => pat.isEmpty
  | c :: rest => pat.isPrefixOf (c :: rest) || hasSubstrAux pat rest

/-- `strHasSubstr s pat` embeds the Python expression `pat in s`. -/
def strHasSubstr (s pat : String) : Bool :=
  hasSubstrAux pat.data s.data

/-- Embedding of Python's `str.strip()` (with the whitespace set
approximated by `Char.isWhitespace`, which covers the space, tab and
newline characters that occur in kernel output): drop whitespace from
both ends. -/
def pyStrip (s : String) : String :=
  String.mk (((s.data.dropWhile Char.isWhitespace).reverse.dropWhile
    Char.isWhitespace).reverse)

/-! ## Jupyter plugin: readiness polling loop

`JupyterPlugin.initialize` (Unix branch, `plugins/jupyter/__init__.py`
lines 139-148) reads the gateway process's stdout line by line:

    while should_continue() and self.gateway_process.stdout is not None:
        line_bytes = await self.gateway_process.stdout.readline()
        line = line_bytes.decode('utf-8')
        output += line
        if 'http' in line or str(self.kernel_gateway_port) in line or 'Gateway' in line:
            break
        await asyncio.sleep(1)

The stdout pipe is modelled as an infinite stream `Nat → String` of the
successive values of `line` (after the process exits, `readline` keeps
returning the empty string, so the stream is total). -/

/-- Embedding of the module-level helper `should_continue()`, whose body
is `return True`. -/
def shouldContinue : Bool := true

/-- The readiness test applied to one line of gateway output: the source
breaks out of the polling loop iff the line contains `"http"`, the
decimal rendering of the configured port, or `"Gateway"` as a substring. -/
def isReadyLine (port : Int) (line : String) : Bool :=
  strHasSubstr line "http" || strHasSubstr line (toString port) ||
    strHasSubstr line "Gateway"

/-- The readiness loop terminates iff some iteration exits it: the `while`
condition fails (`should_continue()` turning false; the stdout pipe of a
launched process is never `None`) or the `break` on a marker line fires. -/
def loopTerminates (port : Int) (lines : Nat → String) : Prop :=
  ∃ i, shouldContinue = false ∨ isReadyLine port (lines i) = true

/-- Index of the line on which the readiness loop breaks, observed for
`fuel` iterations starting at line `i`: the loop has no exit other than
the marker test, so this is the first marker line at or after `i`
(`none` when no marker occurs within the observation window). -/
def firstReadyIdxAux (port : Int) (lines : Nat → String) : Nat → Nat → Option Nat
  | _, 0 => none
  | i, fuel + 1 =>
    if isReadyLine port (lines i) then some i
    else firstReadyIdxAux port lines (i + 1) fuel

/-- Index of the line on which the readiness loop breaks, within the
first `fuel` lines of gateway output. -/
def firstReadyIdx (port : Int) (lines : Nat → String) (fuel : Nat) : Option Nat :=
  firstReadyIdxAux port lines 0 fuel

/-! ## Jupyter plugin: pre-launch configuration

`JupyterPlugin.initialize` lines 36-65: read and validate the port,
then compute the shell prefix for the launch command.  Environment
variables are modelled as `Option String` (`none` = unset); the
configured port is the already-parsed integer value. -/

/-- The errors `initialize` can raise before launching the gateway
process (both are `ValueError`s in the source). -/
inductive InitErr where
  | invalidPort (p : Int)
  | repoPathNotSet
  deriving DecidableEq, Repr

/-- The `poetry_prefix` built in the non-LocalRuntime branch
(lines 48-54). -/
def poetryPrefixNonLocal : String :=
  "cd /simplerun/code\n" ++
  "export POETRY_VIRTUALENVS_PATH=/simplerun/poetry;\n" ++
  "export PYTHONPATH=/simplerun/code:/simplerun/code/simplerun:$PYTHONPATH;\n" ++
  "export MAMBA_ROOT_PREFIX=/simplerun/micromamba;\n" ++
  "/simplerun/micromamba/bin/micromamba run -n simplerun poetry run "

/-- The Unix `jupyter_launch_command` heredoc (lines 116-127). -/
def unixLaunchCommand (poetryPrefix : String) (port : Int) : String :=
  "/bin/bash << \x27EOF\x27\n" ++ poetryPrefix ++
  "jupyter server --ServerApp.ip=0.0.0.0 --ServerApp.port=" ++ toString port ++
  " --ServerApp.token=\"\" --ServerApp.password=\"\" " ++
  "--ServerApp.disable_check_xsrf=True --ServerApp.allow_origin=\"*\"\nEOF"

/-- What a successful pre-launch phase hands to the process launcher. -/
structure LaunchPlan where
  poetryPrefix : String
  launchCommand : String
  deriving DecidableEq, Repr

/-- Embedding of `initialize` up to (but not including) the
`asyncio.create_subprocess_shell` call, Unix path: validate the port
(lines 38-40), then branch on `LOCAL_RUNTIME_MODE == '1'` (line 43); in
the LocalRuntime branch a missing (or empty, Python falsy) value of
`SIMPLERUN_REPO_PATH` raises before anything is launched (lines 58-63).
A gateway process is launched only when the result is `Except.ok`. -/
def preLaunch (port : Int) (localRuntimeMode repoPath : Option String) :
    Except InitErr LaunchPlan :=
  if ¬ (1024 ≤ port ∧ port ≤ 65535) then
    Except.error (InitErr.invalidPort port)
  else if localRuntimeMode = some "1" then
    match repoPath with
    | none => Except.error InitErr.repoPathNotSet
    | some p =>
      if p = "" then Except.error InitErr.repoPathNotSet
      else
        Except.ok ⟨"cd " ++ p ++ "\n", unixLaunchCommand ("cd " ++ p ++ "\n") port⟩
  else
    Except.ok ⟨poetryPrefixNonLocal, unixLaunchCommand poetryPrefixNonLocal port⟩

/-- Does the pre-launch phase fail specifically with the port-range
`ValueError` of lines 39-40? -/
def isPortRangeError : Except InitErr LaunchPlan → Bool
  | Except.error (InitErr.invalidPort _) => true
  | _ => false

/-! ## Jupyter plugin: cell execution (`_run` / `run`)

`JupyterPlugin._run` (lines 165-191) delegates to
`JupyterKernel.execute`, which returns a structured output from which
`_run` reads `output.get('text', '')` and `output.get('images', [])`.
The kernel is abstracted as `kernelExec : String → Except String
(String × List String)`: the text transcript and the image-URL list of
one executed cell (with the `get` defaults already applied), or the
message of the exception the call raised. -/

/-- The observation record built by `_run` (constructor call at
lines 187-191); field names follow `IPythonRunCellObservation`. -/
structure IPythonRunCellObservation where
  content : String
  code : String
  image_urls : Option (List String)
  deriving DecidableEq, Repr

/-- Lines 183-191 of `_run`: package the kernel's structured output as an
observation.  Python's `image_urls if image_urls else None` maps an empty
list to `None` and keeps a non-empty list. -/
def mkCellObservation (code text : String) (images : List String) : IPythonRunCellObservation :=
  { content := text
    code := code
    image_urls := if images.isEmpty then none else some images }

/-- The code-cell path of `_run`: execute `code` on the kernel and build
the observation; a kernel-level failure propagates. -/
def runCellInner (kernelExec : String → Except String (String × List String))
    (code : String) : Except String IPythonRunCellObservation :=
  match kernelExec code with
  | Except.ok (text, images) => Except.ok (mkCellObservation code text images)
  | Except.error e => Except.error e

/-- An inbound action as `run` / `_run` see it: either an
`IPythonRunCellAction` carrying its code, or an action of another type
(which may or may not have a `code` attribute, for the
`hasattr(action, 'code')` test at line 203). -/
inductive ActionModel where
  | cell (code : String)
  | nonCell (codeAttr : Option String)
  deriving DecidableEq, Repr

/-- `JupyterPlugin._run` (lines 165-181): a non-`IPythonRunCellAction`
raises `ValueError`; a cell action is executed on the kernel. -/
def runInner (kernelExec : String → Except String (String × List String)) :
    ActionModel → Except String IPythonRunCellObservation
  | ActionModel.cell code => runCellInner kernelExec code
  | ActionModel.nonCell _ =>
      Except.error "Jupyter plugin only supports IPythonRunCellAction"

/-- The fallback of line 203: `action.code` when the attribute exists,
the literal string `unknown` otherwise. -/
def actionCode : ActionModel → String
  | ActionModel.cell c => c
  | ActionModel.nonCell (some c) => c
  | ActionModel.nonCell none => "unknown"

/-- `JupyterPlugin.run` (lines 193-205): run `_run`, catching every
exception and degrading it to an error observation. -/
def run (kernelExec : String → Except String (String × List String))
    (a : ActionModel) : IPythonRunCellObservation :=
  match runInner kernelExec a with
  | Except.ok obs => obs
  | Except.error e =>
      { content := "Error executing code: " ++ e
        code := actionCode a
        image_urls := none }

/-- The probe cell `initialize` issues after the readiness signal
(line 157). -/
def probeCode : String := "import sys; print(sys.executable)"

/-- The tail of `initialize` (lines 154-163): run the probe cell through
`_run`; on success store the stripped observation content as
`python_interpreter_path`, on failure re-raise. -/
def initProbe (kernelExec : String → Except String (String × List String)) :
    Except String String :=
  match runCellInner kernelExec probeCode with
  | Except.ok obs => Except.ok (pyStrip obs.content)
  | Except.error e => Except.error e

/-! ## Python `str.replace` (all occurrences)

`edit_file_action` (main.py line 778) calls
`old_content.replace(action.old_str, action.new_str)`.  CPython scans
left to right: at each position, if the remaining text starts with the
(non-empty) pattern, emit the replacement and skip the match, otherwise
emit one character and move on.  The scan consumes at least one
character per step, so the input length is enough fuel.  (The source
only reaches this call with a non-empty `old_str`; the model is faithful
for that case.) -/

/-- Left-to-right scan of `str.replace`: fuel-indexed, one unit of fuel
per consumed position. -/
def replaceAllAux (old new : List Char) : Nat → List Char → List Char
  | 0, s => s
  | _ + 1, [] => []
  | fuel + 1, c :: rest =>
    if old.isPrefixOf (c :: rest) then
      new ++ replaceAllAux old new fuel ((c :: rest).drop old.length)
    else
      c :: replaceAllAux old new fuel rest

/-- Embedding of Python's `s.replace(old, new)` for a non-empty `old`. -/
def pyReplace (s old new : String) : String :=
  String.mk (replaceAllAux old.data new.data s.data.length s.data)

/-- Prepend a character to the first piece of a piece list. -/
def consHead (c : Char) : List (List Char) → List (List Char)
  | [] => [[c]]
  | piece :: more => (c :: piece) :: more

/-- The same left-to-right scan, recording the maximal pattern-free
pieces between consecutive (leftmost, non-overlapping) occurrences of
`old` instead of rewriting them: the split view of the text that
`str.replace` rejoins with `new`. -/
def splitOnAux (old : List Char) : Nat → List Char → List (List Char)
  | 0, s => [s]
  | _ + 1, [] => [[]]
  | fuel + 1, c :: rest =>
    if old.isPrefixOf (c :: rest) then
      [] :: splitOnAux old fuel ((c :: rest).drop old.length)
    else
      consHead c (splitOnAux old fuel rest)

/-- Join a list of pieces with a separator between consecutive pieces. -/
def joinWith (sep : List Char) : List (List Char) → List Char
  | [] => []
  | [x] => x
  | x :: y :: xs => x ++ sep ++ joinWith sep (y :: xs)

/-! ## File helpers of `main.py`

The filesystem is abstracted as explicit oracles; paths follow the POSIX
conventions of `os.path` (`isabs` = leading slash). -/

/-- The filesystem as the file helpers consult it: existence and
directory tests, and fallible whole-file read/write (the `Except`
messages stand for the raised `OSError`s that the helpers' blanket
`except` clauses catch). -/
structure FileSystem where
  pathExists : String → Bool
  isDir : String → Bool
  readResult : String → Except String String
  writeResult : String → String → Except String Unit

/-- Embedding of `os.path.isabs` for POSIX paths: the path begins with a
slash. -/
def osPathIsAbs (p : String) : Bool :=
  match p.data with
  | [] => false
  | c :: _ => c = '/'

/-- Does the string end with a slash (used by `os.path.join`)? -/
def endsWithSlash (a : String) : Bool := a.data.getLast? = some '/'

/-- Embedding of `os.path.join(a, b)` for POSIX paths, in the cases the
helpers use (two components). -/
def osPathJoin (a b : String) : String :=
  if osPathIsAbs b then b
  else if a = "" ∨ endsWithSlash a = true then a ++ b
  else a ++ "/" ++ b

/-- The path resolution all three file helpers perform:
`action.path if os.path.isabs(action.path) else os.path.join(working_dir, action.path)`. -/
def resolveActionPath (cwd p : String) : String :=
  if osPathIsAbs p then p else osPathJoin cwd p

/-- The observation record returned by `read_file_action`. -/
structure FileReadObservation where
  content : String
  path : String
  deriving DecidableEq, Repr

/-- Embedding of `read_file_action` (main.py lines 694-728): resolve the
path; a missing path or a directory is reported as descriptive content in
a normally returned observation; otherwise read the file, degrading any
read failure to a descriptive observation as well. -/
def read_file_action (fs : FileSystem) (cwd p : String) : FileReadObservation :=
  let filepath := resolveActionPath cwd p
  if fs.pathExists filepath = false then
    { content := "File not found: " ++ filepath ++
        ". Your current working directory is " ++ cwd ++ "."
      path := filepath }
  else if fs.isDir filepath then
    { content := "Path is a directory: " ++ filepath ++ ". You can only read files"
      path := filepath }
  else
    match fs.readResult filepath with
    | Except.ok content => { content := content, path := filepath }
    | Except.error e =>
        { content := "Error reading file " ++ filepath ++ ": " ++ e
          path := filepath }

/-- The observation record returned by `edit_file_action`; `old_content`
and `new_content` are the optional constructor arguments of
`FileEditObservation` (absent in the failure branches). -/
structure FileEditObservation where
  content : String
  path : String
  old_content : Option String
  new_content : Option String
  deriving DecidableEq, Repr

/-- Embedding of `edit_file_action` (main.py lines 757-797): resolve the
path; a missing file is reported as descriptive content in a normally
returned observation; otherwise read the file, compute the new content
(`str.replace` of all occurrences when the command is `str_replace` and
both strings are Python-truthy, the original content otherwise), and
write it back.  The second component of the result is the content passed
to the write call (`none` when no write is attempted). -/
def edit_file_action (fs : FileSystem) (cwd p command old_str new_str : String) :
    FileEditObservation × Option String :=
  let filepath := resolveActionPath cwd p
  if fs.pathExists filepath = false then
    ({ content := "File not found: " ++ filepath
       path := filepath
       old_content := none
       new_content := none }, none)
  else
    match fs.readResult filepath with
    | Except.error e =>
        ({ content := "Error editing file " ++ filepath ++ ": " ++ e
           path := filepath
           old_content := none
           new_content := none }, none)
    | Except.ok old_content =>
      let new_content :=
        if command = "str_replace" ∧ old_str ≠ "" ∧ new_str ≠ "" then
          pyReplace old_content old_str new_str
        else old_content
      match fs.writeResult filepath new_content with
      | Except.ok _ =>
          ({ content := "File edited successfully"
             path := filepath
             old_content := some old_str
             new_content := some new_str }, some new_content)
      | Except.error e =>
          ({ content := "Error editing file " ++ filepath ++ ": " ++ e
             path := filepath
             old_content := none
             new_content := none }, some new_content)

/-! ## The action dispatcher of `main.py`

`execute_action` (lines 613-692) routes each deserialized action by an
`isinstance` chain to exactly one component and wraps that component's
single observation as the response.  The components are abstracted as
the observation each would produce for the dispatched action. -/

/-- The action types the `isinstance` chain of `execute_action`
distinguishes. -/
inductive ActionKind where
  | cmdRun
  | ipythonRunCell
  | fileRead
  | fileWrite
  | fileEdit
  | unsupported
  deriving DecidableEq, Repr

/-- The response of one dispatch: exactly one observation, tagged with
the component that produced it, or the HTTP 400 error of the final
`else` branch. -/
inductive RouteResult where
  | shell (o : String)
  | kernel (o : IPythonRunCellObservation)
  | fileRead (o : FileReadObservation)
  | fileWrite (o : String)
  | fileEdit (o : FileEditObservation)
  | httpError (status : Nat) (detail : String)
  deriving DecidableEq, Repr

/-- Embedding of the routing chain of `execute_action` (lines 633-683):
`shellObs` is the observation `bash_session.execute(action)` would
return, `kernelObs` the one from the jupyter plugin's `run`, and the
three file observations those of the corresponding file helpers.  Each
action kind consults exactly one of them. -/
def execute_action (shellObs : String) (kernelObs : IPythonRunCellObservation)
    (readObs : FileReadObservation) (writeObs : String)
    (editObs : FileEditObservation) : ActionKind → RouteResult
  | ActionKind.cmdRun => RouteResult.shell shellObs
  | ActionKind.ipythonRunCell => RouteResult.kernel kernelObs
  | ActionKind.fileRead => RouteResult.fileRead readObs
  | ActionKind.fileWrite => RouteResult.fileWrite writeObs
  | ActionKind.fileEdit => RouteResult.fileEdit editObs
  | ActionKind.unsupported => RouteResult.httpError 400 "Unsupported action type"

/-! ## Concrete fixtures used to instantiate the theorems -/

/-- A filesystem on which no path exists (reads fail accordingly). -/
def emptyFS : FileSystem :=
  { pathExists := fun _ => false
    isDir := fun _ => false
    readResult := fun _ => Except.error "No such file or directory"
    writeResult := fun _ _ => Except.ok () }

/-- A filesystem holding one readable, writable regular file whose
content has two occurrences of the pattern used in the edit fixture. -/
def demoFS : FileSystem :=
  { pathExists := fun _ => true
    isDir := fun _ => false
    readResult := fun _ => Except.ok "one two one two"
    writeResult := fun _ _ => Except.ok () }

/-! ## Helper lemmas -/

theorem consHead_ne_nil (c : Char) (ps : List (List Char)) : consHead c ps ≠ [] := by
  cases ps <;> simp [consHead]

theorem splitOnAux_ne_nil (old : List Char) (fuel : Nat) (s : List Char) :
    splitOnAux old fuel s ≠ [] := by
  cases fuel with
  | zero => simp [splitOnAux]
  | succ n =>
    cases s with
    | nil => simp [splitOnAux]
    | cons c rest =>
      simp only [splitOnAux]
      split
      · simp
      · exact consHead_ne_nil c _

theorem joinWith_cons_cons (sep : List Char) (c : Char) (p : List Char)
    (more : List (List Char)) :
    joinWith sep ((c :: p) :: more) = c :: joinWith sep (p :: more) := by
  cases more <;> simp [joinWith]

theorem joinWith_nil_cons (sep : List Char) (ps : List (List Char)) (h : ps ≠ []) :
    joinWith sep ([] :: ps) = sep ++ joinWith sep ps := by
  cases ps with
  | nil => exact absurd rfl h
  | cons q qs => simp [joinWith]

/-- The replacement scan of `str.replace` rewrites each separator
occurrence found by the splitting scan to the replacement string: the
scan result is the split pieces rejoined with `new`. -/
theorem joinWith_consHead (sep : List Char) (c : Char) (ps : List (List Char))
    (h : ps ≠ []) :
    joinWith sep (consHead c ps) = c :: joinWith sep ps := by
  cases ps with
  | nil => exact absurd rfl h
  | cons piece more => rw [consHead, joinWith_cons_cons]

theorem replaceAllAux_eq_joinWith (old new : List Char) :
    ∀ (fuel : Nat) (s : List Char),
      replaceAllAux old new fuel s = joinWith new (splitOnAux old fuel s) := by
  intro fuel
  induction fuel with
  | zero => intro s; simp [replaceAllAux, splitOnAux, joinWith]
  | succ n ih =>
    intro s
    cases s with
    | nil => simp [replaceAllAux, splitOnAux, joinWith]
    | cons c rest =>
      simp only [replaceAllAux, splitOnAux]
      by_cases hpre : old.isPrefixOf (c :: rest) = true
      · simp only [if_pos hpre]
        rw [joinWith_nil_cons new _
          (splitOnAux_ne_nil old n ((c :: rest).drop old.length))]
        rw [ih]
      · simp only [if_neg hpre]
        rw [joinWith_consHead new c _ (splitOnAux_ne_nil old n rest), ih]

/-- Rejoining the split pieces with the separator itself reconstructs the
original text: the splitting scan loses nothing and every separator slot
it records is a genuine occurrence of `old`. -/
theorem joinWith_splitOnAux (old : List Char) (hold : old ≠ []) :
    ∀ (fuel : Nat) (s : List Char), s.length ≤ fuel →
      joinWith old (splitOnAux old fuel s) = s := by
  intro fuel
  induction fuel with
  | zero => intro s _; simp [splitOnAux, joinWith]
  | succ n ih =>
    intro s hs
    cases s with
    | nil => simp [splitOnAux, joinWith]
    | cons c rest =>
      simp only [splitOnAux]
      by_cases hpre : old.isPrefixOf (c :: rest) = true
      · simp only [if_pos hpre]
        obtain ⟨t, ht⟩ : old <+: c :: rest := List.isPrefixOf_iff_prefix.mp hpre
        have hdrop : (c :: rest).drop old.length = t := by
          rw [← ht, List.drop_left]
        have hlenold : 1 ≤ old.length := by
          cases old with
          | nil => exact absurd rfl hold
          | cons _ _ => simp
        have hlen : t.length ≤ n := by
          have hlens := congrArg List.length ht
          simp [List.length_append] at hlens
          simp at hs
          omega
        rw [hdrop,
          joinWith_nil_cons old _ (splitOnAux_ne_nil old n t),
          ih t hlen, ht]
      · simp only [if_neg hpre]
        rw [joinWith_consHead old c _ (splitOnAux_ne_nil old n rest),
          ih rest (by simp at hs; omega)]

/-- A non-empty string has a non-empty character list. -/
theorem string_data_ne_nil (s : String) (h : s ≠ "") : s.data ≠ [] := by
  intro hd
  apply h
  cases s with
  | mk data =>
    cases hd
    rfl

/-- The readiness loop, observed for `fuel` iterations from line `i`,
breaks at `j` iff `j` is the first marker line at or after `i` and lies
inside the observation window. -/
theorem firstReadyIdxAux_eq_some (port : Int) (lines : Nat → String) :
    ∀ (fuel i j : Nat),
      firstReadyIdxAux port lines i fuel = some j ↔
        (i ≤ j ∧ j < i + fuel ∧ isReadyLine port (lines j) = true ∧
          ∀ k, i ≤ k → k < j → isReadyLine port (lines k) = false) := by
  intro fuel
  induction fuel with
  | zero =>
    intro i j
    simp only [firstReadyIdxAux]
    constructor
    · intro h; exact Option.noConfusion h
    · rintro ⟨h1, h2, -⟩; omega
  | succ n ih =>
    intro i j
    simp only [firstReadyIdxAux]
    by_cases hline : isReadyLine port (lines i) = true
    · simp only [if_pos hline]
      constructor
      · intro h
        obtain rfl : i = j := by injection h
        exact ⟨Nat.le_refl i, by omega, hline, fun k hk1 hk2 => by omega⟩
      · rintro ⟨h1, h2, hm, hmin⟩
        obtain rfl : j = i := by
          by_contra hne
          have hcontra : isReadyLine port (lines i) = false :=
            hmin i (Nat.le_refl i) (by omega)
          rw [hcontra] at hline
          exact Bool.noConfusion hline
        rfl
    · have hlf : isReadyLine port (lines i) = false := by
        simpa using hline
      simp only [if_neg hline]
      rw [ih (i + 1) j]
      constructor
      · rintro ⟨h1, h2, hm, hmin⟩
        refine ⟨by omega, by omega, hm, fun k hk1 hk2 => ?_⟩
        rcases Nat.eq_or_lt_of_le hk1 with rfl | hlt
        · exact hlf
        · exact hmin k (by omega) hk2
      · rintro ⟨h1, h2, hm, hmin⟩
        have hij : i ≠ j := by
          rintro rfl
          rw [hm] at hlf
          exact Bool.noConfusion hlf
        exact ⟨by omega, by omega, hm, fun k hk1 hk2 => hmin k (by omega) hk2⟩

/-! ## Claim theorems -/

/-- C1 (counterexample): the claim that the readiness polling loop stops
at a bounded startup timeout is false.  On a gateway whose output stream
never contains a marker line, the loop of `initialize`
(`plugins/jupyter/__init__.py` lines 140-148) never exits — no
iteration satisfies its only exit conditions (`should_continue()`
turning false or a marker line), so initialization neither stops at any
timeout boundary nor raises a `KernelStartupError` (no such timeout,
state transition, or exception exists in the code). -/
theorem readiness_loop_no_timeout_counterexample :
    ¬ loopTerminates 8001 (fun _ => "starting the kernel gateway process") := by
  rintro ⟨i, hc | hm⟩
  · exact absurd hc (by decide)
  · have hfalse : isReadyLine 8001 "starting the kernel gateway process" = false := by
      decide
    exact Bool.noConfusion (hfalse.symm.trans hm)

/-- C1 (amended): if the readiness marker never appears in the gateway
output stream, the polling loop of `initialize` never exits: there is no
startup timeout, no `FAILED` transition and no `KernelStartupError`;
initialization blocks indefinitely. -/
theorem readiness_loop_never_exits_without_marker (port : Int)
    (lines : Nat → String) (h : ∀ i, isReadyLine port (lines i) = false) :
    ¬ loopTerminates port lines := by
  rintro ⟨i, hc | hm⟩
  · exact absurd hc (by decide)
  · rw [h i] at hm
    exact Bool.noConfusion hm

/-- C1 (witness): the amended theorem applied to a concrete marker-free
output stream. -/
theorem readiness_loop_never_exits_witness :
    ¬ loopTerminates 8001 (fun _ => "booting jupyter") :=
  readiness_loop_never_exits_without_marker 8001 (fun _ => "booting jupyter")
    (fun _ => (by decide : isReadyLine 8001 "booting jupyter" = false))

/-- C2: `initialize` fails with the port-range `ValueError` (before any
gateway process is launched — the error is produced by the pre-launch
phase, which alone decides whether a `LaunchPlan` reaches the process
launcher) exactly when the configured port lies outside 1024-65535; for
a port inside the range that error is never raised, whatever the rest of
the environment holds. -/
theorem port_range_error_iff (port : Int) (localRuntimeMode repoPath : Option String) :
    isPortRangeError (preLaunch port localRuntimeMode repoPath) = true ↔
      ¬ (1024 ≤ port ∧ port ≤ 65535) := by
  by_cases h : 1024 ≤ port ∧ port ≤ 65535
  · simp only [preLaunch, if_neg (not_not_intro h), h, not_true, iff_false]
    by_cases hl : localRuntimeMode = some "1"
    · simp only [if_pos hl]
      cases repoPath with
      | none => simp [isPortRangeError]
      | some p =>
        by_cases hp : p = ""
        · simp [if_pos hp, isPortRangeError]
        · simp [if_neg hp, isPortRangeError]
    · simp [if_neg hl, isPortRangeError]
  · simp [preLaunch, if_pos h, isPortRangeError, h]

/-- C9: with `LOCAL_RUNTIME_MODE` set to `1` and `SIMPLERUN_REPO_PATH`
unset, the pre-launch phase of `initialize` errors for every port, so no
gateway process is ever launched (no `LaunchPlan` is produced); when the
port is in range the error is precisely the missing-repo-path
`ValueError` of lines 59-63. -/
theorem local_mode_missing_repo_errors (port : Int) :
    (∃ e, preLaunch port (some "1") none = Except.error e) ∧
      ((1024 ≤ port ∧ port ≤ 65535) →
        preLaunch port (some "1") none = Except.error InitErr.repoPathNotSet) := by
  by_cases h : 1024 ≤ port ∧ port ≤ 65535
  · have hok : preLaunch port (some "1") none =
        Except.error InitErr.repoPathNotSet := by
      unfold preLaunch
      rw [if_neg (not_not_intro h), if_pos rfl]
    exact ⟨⟨InitErr.repoPathNotSet, hok⟩, fun _ => hok⟩
  · have hbad : preLaunch port (some "1") none =
        Except.error (InitErr.invalidPort port) := by
      unfold preLaunch
      rw [if_pos h]
    exact ⟨⟨InitErr.invalidPort port, hbad⟩, fun hc => absurd hc h⟩

/-- C9 (witness): the theorem applied at the default port 8001. -/
theorem local_mode_missing_repo_witness :
    preLaunch 8001 (some "1") none = Except.error InitErr.repoPathNotSet :=
  (local_mode_missing_repo_errors 8001).2 (by decide)

/-- C5: readiness detection is a deterministic function of the startup
log lines; the loop breaks at index `j` (within any observation window
`fuel`) exactly when line `j` is the first line satisfying the marker
test — containment of the substring `http`, of the decimal port, or of
the substring `Gateway` — so readiness is declared at exactly one,
uniquely determined, line of each initialization's output. -/
theorem readiness_first_marker_iff (port : Int) (lines : Nat → String)
    (fuel j : Nat) :
    firstReadyIdx port lines fuel = some j ↔
      (j < fuel ∧
        (strHasSubstr (lines j) "http" || strHasSubstr (lines j) (toString port) ||
          strHasSubstr (lines j) "Gateway") = true ∧
        ∀ k, k < j → isReadyLine port (lines k) = false) := by
  unfold firstReadyIdx
  rw [firstReadyIdxAux_eq_some]
  show _ ↔ (j < fuel ∧ isReadyLine port (lines j) = true ∧ _)
  constructor
  · rintro ⟨-, h2, hm, hmin⟩
    exact ⟨by omega, hm, fun k hk => hmin k (Nat.zero_le k) hk⟩
  · rintro ⟨h1, hm, hmin⟩
    exact ⟨Nat.zero_le j, by omega, hm, fun k _ hk => hmin k hk⟩

/-- C5 (witness): on a log whose first line echoes the server URL, the
loop declares readiness at line 0. -/
theorem readiness_first_marker_witness :
    firstReadyIdx 8001
      (fun _ => "Jupyter Server is running at http://0.0.0.0:8001/") 3 = some 0 :=
  (readiness_first_marker_iff 8001
      (fun _ => "Jupyter Server is running at http://0.0.0.0:8001/") 3 0).mpr
    ⟨by decide,
      (by decide :
        (strHasSubstr "Jupyter Server is running at http://0.0.0.0:8001/" "http" ||
          strHasSubstr "Jupyter Server is running at http://0.0.0.0:8001/"
            (toString (8001 : Int)) ||
          strHasSubstr "Jupyter Server is running at http://0.0.0.0:8001/"
            "Gateway") = true),
      fun k hk => absurd hk (Nat.not_lt_zero k)⟩

/-- C3: after the readiness signal, `initialize` issues the single probe
cell `import sys; print(sys.executable)` through `_run`; when the kernel
executes it, the stripped text output is stored as the resolved
interpreter path, and when the probe fails the exception propagates out
of `initialize` unchanged (lines 154-163). -/
theorem initialize_probe_spec
    (kernelExec : String → Except String (String × List String)) :
    (∀ text images, kernelExec probeCode = Except.ok (text, images) →
        initProbe kernelExec = Except.ok (pyStrip text)) ∧
      (∀ e, kernelExec probeCode = Except.error e →
        initProbe kernelExec = Except.error e) := by
  constructor
  · intro text images h
    simp [initProbe, runCellInner, h, mkCellObservation]
  · intro e h
    simp [initProbe, runCellInner, h]

/-- C3 (witness): a kernel answering the probe with a trailing-newline
path yields that path, stripped, as the stored interpreter path. -/
theorem initialize_probe_spec_witness :
    initProbe (fun _ => Except.ok ("/usr/bin/python3\n", [])) =
      Except.ok "/usr/bin/python3" :=
  ((initialize_probe_spec (fun _ => Except.ok ("/usr/bin/python3\n", []))).1
      "/usr/bin/python3\n" [] rfl).trans
    (congrArg Except.ok (by decide))

/-- C4: `run` catches every exception of the cell-execution pipeline and
converts it into a returned observation whose content describes the
failure (`Error executing code: ` followed by the exception text), never
propagating it; a successful inner result is returned as-is.  (In the
embedding, totality of `run` — its return type is an observation, not an
exceptional result — is exactly the absence of propagation.) -/
theorem run_catches_all_errors
    (kernelExec : String → Except String (String × List String))
    (a : ActionModel) :
    (∀ e, runInner kernelExec a = Except.error e →
        run kernelExec a =
          { content := "Error executing code: " ++ e
            code := actionCode a
            image_urls := none }) ∧
      (∀ obs, runInner kernelExec a = Except.ok obs → run kernelExec a = obs) := by
  constructor <;> intro x h <;> simp [run, h]

/-- C4 (witness): a lost kernel connection is degraded to a textual
error observation carrying the action's code. -/
theorem run_catches_all_errors_witness :
    run (fun _ => Except.error "kernel connection lost")
        (ActionModel.cell "1 / 0") =
      { content := "Error executing code: kernel connection lost"
        code := "1 / 0"
        image_urls := none } :=
  (run_catches_all_errors (fun _ => Except.error "kernel connection lost")
      (ActionModel.cell "1 / 0")).1 "kernel connection lost" rfl

/-- C8: the observation built by `_run` has `image_urls = none` exactly
when the kernel reported no image artifact, and carries the kernel's
image list itself (a non-empty list) whenever at least one image was
reported — an empty list is never stored. -/
theorem image_urls_none_iff_empty (code text : String) (images : List String) :
    ((mkCellObservation code text images).image_urls = none ↔ images = []) ∧
      (images ≠ [] →
        (mkCellObservation code text images).image_urls = some images) := by
  cases images with
  | nil => simp [mkCellObservation]
  | cons i is => simp [mkCellObservation]

/-- C8 (witness): one reported image is stored as a singleton list. -/
theorem image_urls_witness :
    (mkCellObservation "plot()" "ok" ["img-1.png"]).image_urls =
      some ["img-1.png"] :=
  (image_urls_none_iff_empty "plot()" "ok" ["img-1.png"]).2 (by decide)

/-- C6: a read or edit action whose resolved path does not exist, and a
read action whose resolved path is a directory, return a normal
observation whose content is the human-readable description built by
`read_file_action` / `edit_file_action` (main.py lines 702-713 and
766-770); no exception escapes (the embedding's helpers are total
functions into observations), and no write is attempted by the edit. -/
theorem file_actions_missing_path_reported (fs : FileSystem)
    (cwd p command old_str new_str : String) :
    (fs.pathExists (resolveActionPath cwd p) = false →
        read_file_action fs cwd p =
          { content := "File not found: " ++ resolveActionPath cwd p ++
              ". Your current working directory is " ++ cwd ++ "."
            path := resolveActionPath cwd p } ∧
        edit_file_action fs cwd p command old_str new_str =
          ({ content := "File not found: " ++ resolveActionPath cwd p
             path := resolveActionPath cwd p
             old_content := none
             new_content := none }, none)) ∧
      (fs.pathExists (resolveActionPath cwd p) = true →
        fs.isDir (resolveActionPath cwd p) = true →
        read_file_action fs cwd p =
          { content := "Path is a directory: " ++ resolveActionPath cwd p ++
              ". You can only read files"
            path := resolveActionPath cwd p }) := by
  constructor
  · intro h
    constructor
    · simp [read_file_action, h]
    · simp [edit_file_action, h]
  · intro h1 h2
    simp [read_file_action, h1, h2]

/-- C6 (witness): on a filesystem without the file, both helpers report
the missing path inside a normally returned observation. -/
theorem file_actions_missing_path_witness :
    read_file_action emptyFS "/workspace" "notes.txt" =
        { content := "File not found: /workspace/notes.txt. Your current working directory is /workspace."
          path := "/workspace/notes.txt" } ∧
      edit_file_action emptyFS "/workspace" "notes.txt" "str_replace" "a" "b" =
        ({ content := "File not found: /workspace/notes.txt"
           path := "/workspace/notes.txt"
           old_content := none
           new_content := none }, none) :=
  (file_actions_missing_path_reported emptyFS "/workspace" "notes.txt"
      "str_replace" "a" "b").1 rfl

/-- C7: the dispatcher of `execute_action` maps each action type to
exactly one handler — shell commands to the shell session, code cells to
the kernel plugin, each file action to its own helper, anything else to
the HTTP 400 branch — producing exactly one tagged observation; the
response to a shell action does not depend on the kernel component and
the response to a code cell does not depend on the shell component. -/
theorem execute_action_routing (shellObs : String)
    (kernelObs : IPythonRunCellObservation) (readObs : FileReadObservation)
    (writeObs : String) (editObs : FileEditObservation) :
    (execute_action shellObs kernelObs readObs writeObs editObs ActionKind.cmdRun =
        RouteResult.shell shellObs ∧
      execute_action shellObs kernelObs readObs writeObs editObs
          ActionKind.ipythonRunCell = RouteResult.kernel kernelObs ∧
      execute_action shellObs kernelObs readObs writeObs editObs
          ActionKind.fileRead = RouteResult.fileRead readObs ∧
      execute_action shellObs kernelObs readObs writeObs editObs
          ActionKind.fileWrite = RouteResult.fileWrite writeObs ∧
      execute_action shellObs kernelObs readObs writeObs editObs
          ActionKind.fileEdit = RouteResult.fileEdit editObs ∧
      execute_action shellObs kernelObs readObs writeObs editObs
          ActionKind.unsupported =
        RouteResult.httpError 400 "Unsupported action type") ∧
      (∀ kernelObs2,
        execute_action shellObs kernelObs2 readObs writeObs editObs
            ActionKind.cmdRun =
          execute_action shellObs kernelObs readObs writeObs editObs
            ActionKind.cmdRun) ∧
      (∀ shellObs2,
        execute_action shellObs2 kernelObs readObs writeObs editObs
            ActionKind.ipythonRunCell =
          execute_action shellObs kernelObs readObs writeObs editObs
            ActionKind.ipythonRunCell) :=
  ⟨⟨rfl, rfl, rfl, rfl, rfl, rfl⟩, fun _ => rfl, fun _ => rfl⟩

/-- C10: on an existing readable file, an edit with command
`str_replace` and non-empty old/new strings writes back the content with
every leftmost non-overlapping occurrence of the old string replaced by
the new one — the written text is the pieces of the original split at
every occurrence of `old_str`, rejoined with `new_str`, and rejoining
those same pieces with `old_str` reconstructs the original exactly; any
other command, or an empty old or new string, writes the original
content back unchanged; in both cases the observation reports
`File edited successfully`. -/
theorem edit_file_replaces_all_occurrences (fs : FileSystem)
    (cwd p command old_str new_str content : String)
    (hex : fs.pathExists (resolveActionPath cwd p) = true)
    (hread : fs.readResult (resolveActionPath cwd p) = Except.ok content)
    (hwrite : ∀ c, fs.writeResult (resolveActionPath cwd p) c = Except.ok ()) :
    ((command = "str_replace" ∧ old_str ≠ "" ∧ new_str ≠ "") →
        (edit_file_action fs cwd p command old_str new_str).2 =
            some (pyReplace content old_str new_str) ∧
          (pyReplace content old_str new_str).data =
            joinWith new_str.data
              (splitOnAux old_str.data content.data.length content.data) ∧
          joinWith old_str.data
              (splitOnAux old_str.data content.data.length content.data) =
            content.data) ∧
      (¬ (command = "str_replace" ∧ old_str ≠ "" ∧ new_str ≠ "") →
        (edit_file_action fs cwd p command old_str new_str).2 = some content) ∧
      (edit_file_action fs cwd p command old_str new_str).1.content =
        "File edited successfully" := by
  have hmain : edit_file_action fs cwd p command old_str new_str =
      ({ content := "File edited successfully"
         path := resolveActionPath cwd p
         old_content := some old_str
         new_content := some new_str },
        some (if command = "str_replace" ∧ old_str ≠ "" ∧ new_str ≠ "" then
          pyReplace content old_str new_str else content)) := by
    simp [edit_file_action, hex, hread, hwrite]
  refine ⟨fun hc => ⟨?_, ?_, ?_⟩, fun hc => ?_, ?_⟩
  · rw [hmain]
    simp [if_pos hc]
  · exact replaceAllAux_eq_joinWith old_str.data new_str.data
      content.data.length content.data
  · exact joinWith_splitOnAux old_str.data
      (string_data_ne_nil old_str hc.2.1) content.data.length content.data
      (Nat.le_refl _)
  · rw [hmain]
    simp [if_neg hc]
  · rw [hmain]

/-- C10 (witness): editing a file containing two occurrences of the
pattern replaces both of them, and the edit reports success. -/
theorem edit_file_replaces_all_witness :
    (edit_file_action demoFS "/w" "f.txt" "str_replace" "one" "1").2 =
        some "1 two 1 two" ∧
      (edit_file_action demoFS "/w" "f.txt" "str_replace" "one" "1").1.content =
        "File edited successfully" :=
  have h := edit_file_replaces_all_occurrences demoFS "/w" "f.txt" "str_replace"
    "one" "1" "one two one two" rfl rfl (fun _ => rfl)
  ⟨((h.1 ⟨rfl, by decide, by decide⟩).1).trans (congrArg some (by decide)),
    h.2.2⟩

end SimpleRun
